import Mathlib

/-!
Verification of the `convert_oct_data` conversion pipeline (`src/main.cpp`).

The C++ program batch-converts OCT scan files.  Its core consists of
four pieces (we keep the source's names):

* `createFilename` — derives the destination base name from the scan's
  patient/study/series hierarchy with a fallback chain;
* `anonymisingOct` — strips demographic fields in place;
* `convertFile` — loads one file, resolves the destination, refuses to
  overwrite, optionally anonymises, writes;
* `convertFilesFromDir` — walks a directory tree, filters candidates by
  extension and a loadability probe, and dispatches to `convertFile`.

The hierarchical record model (`OctData::OCT`, `Patient`, `Study`,
`Series`, `Date`) is embedded with explicit lists standing for the
underlying ordered maps (iteration order = list order, `begin()` = head,
pointers = `Option`).  Filesystem and codec effects are modelled by an
explicit environment of functions and an event trace.
-/

namespace ConvertOct

/-- Date with separately settable day/month/year and a distinguishable
"empty" state (models `OctData::Date` as used by the program). -/
structure Date where
  day : Int
  month : Int
  year : Int
  isEmpty : Bool
deriving DecidableEq

/-- Models `Date::setDay`. -/
def Date.setDay (d : Date) (v : Int) : Date := { d with day := v }

/-- Models `Date::setMonth`. -/
def Date.setMonth (d : Date) (v : Int) : Date := { d with month := v }

/-- Series contents (B-scan data) are opaque to the conversion core:
the program only ever reads the series id, the map key. -/
abbrev Series := Unit

/-- Models `OctData::Study`: series keyed by an integer id; the map is
an association list in iteration order, the stored pointer may be null. -/
structure Study where
  series : List (Int × Option Series)
deriving DecidableEq

/-- Models `OctData::Patient`: id string, demographic fields, birthdate
and studies keyed by an integer id (pointer values may be null). -/
structure Patient where
  id : String
  surname : String
  forename : String
  title : String
  birthdate : Date
  studies : List (Int × Option Study)
deriving DecidableEq

/-- Models `OctData::OCT`: patients keyed by an integer id, pointer
values may be null.  List order is the container's iteration order. -/
structure OCT where
  patients : List (Int × Option Patient)
deriving DecidableEq

/-- Models the `OutputFormat` enum. -/
inductive OutputFormat where
  | xoct
  | octbin
  | img
deriving DecidableEq

/-- Models the `Options` struct.  The codec read/write sub-configurations
(`optFileRead`, `optWrite`) are passed opaquely to the external codec and
are absorbed into the environment's codec functions below. -/
structure Options where
  outputFormat : OutputFormat := OutputFormat.xoct
  addOldFilename : Bool := false
  anonymising : Bool := false
  outputPath : String := ""
deriving DecidableEq

/-- Models `getExtention` (source spelling kept): the extension token of
each output format.  The enum is closed, so the trailing `return ""` of
the C++ switch is unreachable. -/
def getExtention : OutputFormat → String
  | OutputFormat.xoct => ".xoct"
  | OutputFormat.octbin => ".octbin"
  | OutputFormat.img => ".img"

/-- A filesystem path, decomposed the way the program consumes it:
`dir` models `branch_path()`, `stem` models `stem()` and `ext` models
`extension()` (dot included, empty when there is none).  Note that with
boost.filesystem a dotfile such as `.profile` has extension `.profile`
and an empty stem. -/
structure Path where
  dir : String
  stem : String
  ext : String
deriving DecidableEq

/-- Models `operator/` of boost paths on our flat strings. -/
def joinPath (d f : String) : String := if d = "" then f else d ++ "/" ++ f

/-- Models `path::generic_string()` on a full path. -/
def Path.full (p : Path) : String := joinPath p.dir (p.stem ++ p.ext)

/-- Models `createFilename` (`src/main.cpp` lines 58-90): the fallback
chain deriving the destination base name. -/
def createFilename (octdata : OCT) (sourceFilename : Path) (opt : Options) : String :=
  let oldFileName := sourceFilename.stem
  match octdata.patients with
  | [] => oldFileName
  | pat :: _ =>
    match pat.2 with
    | none => oldFileName
    | some p =>
      match p.studies with
      | [] => oldFileName
      | study :: _ =>
        let s := study.2
        let studyId := study.1
        let destFileName := if p.id = "" then "unknown" else p.id
        match s with
        | none => destFileName
        | some st =>
          match st.series with
          | [] => destFileName
          | series :: _ =>
            let seriesId := series.1
            let destFileName :=
              destFileName ++ "_" ++ toString studyId ++ "_" ++ toString seriesId
            if opt.addOldFilename then destFileName ++ "_" ++ sourceFilename.stem
            else destFileName

/-- The per-patient body of the `anonymisingOct` loop
(`src/main.cpp` lines 96-111). -/
def anonymisePatient (pat : Patient) : Patient :=
  let pat := { pat with surname := "", forename := "", title := "" }
  let d := pat.birthdate
  if ¬ d.isEmpty then
    { pat with birthdate := (d.setDay 1).setMonth 1 }
  else
    pat

/-- Models `anonymisingOct` (`src/main.cpp` lines 92-113): iterates over
all patient entries, skipping null patient pointers. -/
def anonymisingOct (octData : OCT) : OCT :=
  { octData with
      patients := octData.patients.map fun pair =>
        match pair.2 with
        | some pat => (pair.1, some (anonymisePatient pat))
        | none => pair }

/-- The external collaborators (codec and filesystem primitives) that
`convertFile` and `convertFilesFromDir` consume, as one environment of
functions.  `openFile` models `OctData::OctFileRead::openFile`, which by
its C++ signature returns a record by value (the library reports read
errors on its own side channel and yields the record it could fill, an
empty one on a failed load); `pathExists` models `bfs::exists`;
`writeFile` models `OctData::OctFileRead::writeFile` returning its
success flag; `isLoadable` models `OctData::OctFileRead::isLoadable`. -/
structure Env where
  openFile : Path → OCT
  pathExists : String → Bool
  writeFile : String → OCT → Bool
  isLoadable : String → Bool

/-- Observable actions of the conversion pipeline, in program order:
the conflict message on `cerr`, the planned-destination message on
`cout`, a write attempt with the record being written, and the
write-failure message on `cerr`. -/
inductive Event where
  | existsError (dest : String)
  | planned (dest : String)
  | writeAttempt (dest : String) (data : OCT)
  | writeError (dest : String)
deriving DecidableEq

/-- The destination path `convertFile` computes before its existence
check (`src/main.cpp` lines 117-126): base name from `createFilename`,
directory from `opt.outputPath` if non-empty else the source's
directory, then the target format's extension appended. -/
def destFileNameOf (env : Env) (filename : Path) (opt : Options) : String :=
  let octdata := env.openFile filename
  let base := createFilename octdata filename opt
  let destDir := if opt.outputPath = "" then filename.dir else opt.outputPath
  joinPath destDir base ++ getExtention opt.outputFormat

/-- Models `convertFile` (`src/main.cpp` lines 115-143) as the trace of
its observable actions: load, compute the destination, refuse to touch
an existing destination, otherwise announce it, anonymise when asked,
and attempt the write, reporting failure. -/
def convertFile (env : Env) (filename : Path) (opt : Options) : List Event :=
  let octdata := env.openFile filename
  let destFileName := destFileNameOf env filename opt
  if env.pathExists destFileName then
    [Event.existsError destFileName]
  else
    Event.planned destFileName ::
      (if destFileName ≠ "" then
        let octdata := if opt.anonymising then anonymisingOct octdata else octdata
        Event.writeAttempt destFileName octdata ::
          (if env.writeFile destFileName octdata then []
           else [Event.writeError destFileName])
      else [])

/-- One directory entry produced by the recursive walk: its path and
whether it is a directory. -/
structure DirEntry where
  path : Path
  isDir : Bool
deriving DecidableEq

/-- The body of the `convertFilesFromDir` loop for one entry
(`src/main.cpp` lines 152-159): skip directories, skip files already
carrying the target format's extension, probe loadability, convert. -/
def dirStep (env : Env) (opt : Options) (e : DirEntry) : List Event :=
  if e.isDir then []
  else if e.path.ext ≠ getExtention opt.outputFormat then
    if env.isLoadable e.path.full then convertFile env e.path opt
    else []
  else []

/-- Models `convertFilesFromDir` (`src/main.cpp` lines 146-163): the
recursive directory iterator is modelled by the flattened list of
entries it would enumerate, processed in order. -/
def convertFilesFromDir (env : Env) (entries : List DirEntry) (opt : Options) : List Event :=
  match entries with
  | [] => []
  | e :: rest => dirStep env opt e ++ convertFilesFromDir env rest opt

/-- C1: for every scan record whose first patient (in iteration order)
is present and has at least one study whose first study is present and
has at least one series, `createFilename` returns
`<patientId-or-"unknown">_<studyId>_<seriesId>`, with the patient id
replaced by the literal `"unknown"` exactly when it is empty, and with
`_<originalStem>` appended exactly when `opt.addOldFilename` is set;
ids are rendered in decimal. -/
theorem C1_createFilename_full_hierarchy
    (octdata : OCT) (src : Path) (opt : Options)
    (patKey : Int) (p : Patient) (restPat : List (Int × Option Patient))
    (studyId : Int) (st : Study) (restStudy : List (Int × Option Study))
    (seriesId : Int) (ser : Option Series) (restSeries : List (Int × Option Series))
    (hpat : octdata.patients = (patKey, some p) :: restPat)
    (hstudy : p.studies = (studyId, some st) :: restStudy)
    (hseries : st.series = (seriesId, ser) :: restSeries) :
    createFilename octdata src opt =
      (if p.id = "" then "unknown" else p.id) ++ "_" ++ toString studyId ++ "_" ++
        toString seriesId ++ (if opt.addOldFilename then "_" ++ src.stem else "") := by
  unfold createFilename
  rw [hpat]
  simp only [hstudy, hseries]
  cases hadd : opt.addOldFilename <;>
    simp [hadd, String.append_assoc, String.append_empty]

/-- Closed instantiation of `C1_createFilename_full_hierarchy`: patient
id `P42`, study `3`, series `7`, old stem `scan001`, with and without
`addOldFilename`. -/
theorem C1_witness :
    (OCT.mk [(1, some (Patient.mk "P42" "Doe" "Jo" "Dr" (Date.mk 17 5 1980 false)
        [(3, some (Study.mk [(7, some ())]))]))]).patients =
      (1, some (Patient.mk "P42" "Doe" "Jo" "Dr" (Date.mk 17 5 1980 false)
        [(3, some (Study.mk [(7, some ())]))])) :: [] ∧
    createFilename
      (OCT.mk [(1, some (Patient.mk "P42" "Doe" "Jo" "Dr" (Date.mk 17 5 1980 false)
        [(3, some (Study.mk [(7, some ())]))]))])
      (Path.mk "/data" "scan001" ".raw")
      { addOldFilename := true } = "P42_3_7_scan001" := by
  refine ⟨rfl, ?_⟩
  have h := C1_createFilename_full_hierarchy
    (OCT.mk [(1, some (Patient.mk "P42" "Doe" "Jo" "Dr" (Date.mk 17 5 1980 false)
        [(3, some (Study.mk [(7, some ())]))]))])
    (Path.mk "/data" "scan001" ".raw")
    { addOldFilename := true }
    1 (Patient.mk "P42" "Doe" "Jo" "Dr" (Date.mk 17 5 1980 false)
        [(3, some (Study.mk [(7, some ())]))]) []
    3 (Study.mk [(7, some ())]) []
    7 (some ()) []
    rfl rfl rfl
  rw [h]
  rfl

/-- The body of the anonymisation loop changes nothing but the
demographic fields and the birthdate. -/
theorem anonymisePatient_id_studies (p : Patient) :
    (anonymisePatient p).id = p.id ∧ (anonymisePatient p).studies = p.studies := by
  cases h : p.birthdate.isEmpty <;> simp [anonymisePatient, h]

/-- The body of the anonymisation loop is idempotent on one patient. -/
theorem anonymisePatient_idem (p : Patient) :
    anonymisePatient (anonymisePatient p) = anonymisePatient p := by
  rcases p with ⟨pid, sur, fore, tit, ⟨d, m, y, e⟩, studies⟩
  cases e <;> rfl

/-- C2: anonymisation maps every present patient entry to its
anonymised form, which has empty surname, forename and title; a
non-empty birthdate gets day 1 and month 1 with the year (and
non-emptiness) unchanged, and an empty birthdate is kept untouched. -/
theorem C2_anonymise_fields
    (octdata : OCT) (k : Int) (p : Patient)
    (hmem : (k, some p) ∈ octdata.patients) :
    (k, some (anonymisePatient p)) ∈ (anonymisingOct octdata).patients ∧
    (anonymisePatient p).surname = "" ∧
    (anonymisePatient p).forename = "" ∧
    (anonymisePatient p).title = "" ∧
    (p.birthdate.isEmpty = false →
      (anonymisePatient p).birthdate.day = 1 ∧
      (anonymisePatient p).birthdate.month = 1 ∧
      (anonymisePatient p).birthdate.year = p.birthdate.year ∧
      (anonymisePatient p).birthdate.isEmpty = false) ∧
    (p.birthdate.isEmpty = true → (anonymisePatient p).birthdate = p.birthdate) := by
  refine ⟨?_, ?_, ?_, ?_, ?_, ?_⟩
  · have h := List.mem_map_of_mem
      (fun pair : Int × Option Patient =>
        match pair.2 with
        | some pat => (pair.1, some (anonymisePatient pat))
        | none => pair) hmem
    simpa [anonymisingOct] using h
  · cases h : p.birthdate.isEmpty <;> simp [anonymisePatient, h]
  · cases h : p.birthdate.isEmpty <;> simp [anonymisePatient, h]
  · cases h : p.birthdate.isEmpty <;> simp [anonymisePatient, h]
  · intro hne
    simp [anonymisePatient, hne, Date.setDay, Date.setMonth]
  · intro hemp
    simp [anonymisePatient, hemp]

/-- Closed instantiation of `C2_anonymise_fields` on a patient with
surname `Doe` and birthdate `1980-05-17`. -/
theorem C2_witness :
    (1, some (Patient.mk "P1" "Doe" "Jo" "Dr" (Date.mk 17 5 1980 false) [])) ∈
      (OCT.mk [(1, some (Patient.mk "P1" "Doe" "Jo" "Dr" (Date.mk 17 5 1980 false) []))]).patients ∧
    ((1, some (anonymisePatient (Patient.mk "P1" "Doe" "Jo" "Dr" (Date.mk 17 5 1980 false) []))) ∈
      (anonymisingOct (OCT.mk [(1, some (Patient.mk "P1" "Doe" "Jo" "Dr" (Date.mk 17 5 1980 false) []))])).patients ∧
     (anonymisePatient (Patient.mk "P1" "Doe" "Jo" "Dr" (Date.mk 17 5 1980 false) [])).surname = "" ∧
     (anonymisePatient (Patient.mk "P1" "Doe" "Jo" "Dr" (Date.mk 17 5 1980 false) [])).forename = "" ∧
     (anonymisePatient (Patient.mk "P1" "Doe" "Jo" "Dr" (Date.mk 17 5 1980 false) [])).title = "" ∧
     ((Patient.mk "P1" "Doe" "Jo" "Dr" (Date.mk 17 5 1980 false) []).birthdate.isEmpty = false →
       (anonymisePatient (Patient.mk "P1" "Doe" "Jo" "Dr" (Date.mk 17 5 1980 false) [])).birthdate.day = 1 ∧
       (anonymisePatient (Patient.mk "P1" "Doe" "Jo" "Dr" (Date.mk 17 5 1980 false) [])).birthdate.month = 1 ∧
       (anonymisePatient (Patient.mk "P1" "Doe" "Jo" "Dr" (Date.mk 17 5 1980 false) [])).birthdate.year =
         (Patient.mk "P1" "Doe" "Jo" "Dr" (Date.mk 17 5 1980 false) []).birthdate.year ∧
       (anonymisePatient (Patient.mk "P1" "Doe" "Jo" "Dr" (Date.mk 17 5 1980 false) [])).birthdate.isEmpty = false) ∧
     ((Patient.mk "P1" "Doe" "Jo" "Dr" (Date.mk 17 5 1980 false) []).birthdate.isEmpty = true →
       (anonymisePatient (Patient.mk "P1" "Doe" "Jo" "Dr" (Date.mk 17 5 1980 false) [])).birthdate =
         (Patient.mk "P1" "Doe" "Jo" "Dr" (Date.mk 17 5 1980 false) []).birthdate)) :=
  ⟨List.mem_singleton.mpr rfl,
   C2_anonymise_fields
     (OCT.mk [(1, some (Patient.mk "P1" "Doe" "Jo" "Dr" (Date.mk 17 5 1980 false) []))])
     1 (Patient.mk "P1" "Doe" "Jo" "Dr" (Date.mk 17 5 1980 false) [])
     (List.mem_singleton.mpr rfl)⟩

/-- C8: `anonymisingOct` is idempotent: applying it twice gives exactly
the record obtained by applying it once. -/
theorem C8_anonymise_idempotent (octdata : OCT) :
    anonymisingOct (anonymisingOct octdata) = anonymisingOct octdata := by
  unfold anonymisingOct
  congr 1
  simp only [List.map_map]
  apply List.map_congr_left
  intro pair _
  rcases pair with ⟨k, q⟩
  cases q with
  | none => rfl
  | some pat => simp [Function.comp, anonymisePatient_idem]

/-- C9: anonymisation preserves every patient key, every present
patient's id string and its whole study/series substructure (study ids,
series ids, nesting), and whether each patient pointer is null. -/
theorem C9_anonymise_frame (octdata : OCT) :
    (anonymisingOct octdata).patients.map
        (fun pr => (pr.1, pr.2.map fun p => (p.id, p.studies))) =
      octdata.patients.map
        (fun pr => (pr.1, pr.2.map fun p => (p.id, p.studies))) := by
  unfold anonymisingOct
  simp only [List.map_map]
  apply List.map_congr_left
  intro pair _
  rcases pair with ⟨k, q⟩
  cases q with
  | none => rfl
  | some pat =>
    have h := anonymisePatient_id_studies pat
    simp [Function.comp, h.1, h.2]

/-- A string with length zero is the empty string. -/
theorem eq_empty_of_length_eq_zero (s : String) (h : s.length = 0) : s = "" := by
  cases s with
  | mk data =>
    have : data = [] := List.length_eq_zero.mp h
    simp [this]

/-- Appending anything to a non-empty string stays non-empty. -/
theorem append_ne_empty_left (a b : String) (ha : a ≠ "") : a ++ b ≠ "" := by
  intro hab
  apply ha
  have hlen := congrArg String.length hab
  rw [String.length_append] at hlen
  simp only [String.length_empty] at hlen
  exact eq_empty_of_length_eq_zero a (by omega)

/-- The patient-id-or-unknown fallback is never empty. -/
theorem destName_ne_empty (pid : String) :
    (if pid = "" then "unknown" else pid) ≠ "" := by
  by_cases hid : pid = "" <;> simp [hid]

/-- C4 counterexample: a record whose first patient is present with id
`P1` but has no studies.  The claim says `createFilename` returns the
destName `P1`; the code (line 68-69 of `src/main.cpp`) returns the
original stem `orig` instead. -/
theorem C4_counterexample :
    createFilename
        (OCT.mk [(1, some (Patient.mk "P1" "" "" "" (Date.mk 0 0 0 true) []))])
        (Path.mk "/data" "orig" ".raw") (Options.mk OutputFormat.xoct false false "")
      = "orig" ∧
    createFilename
        (OCT.mk [(1, some (Patient.mk "P1" "" "" "" (Date.mk 0 0 0 true) []))])
        (Path.mk "/data" "orig" ".raw") (Options.mk OutputFormat.xoct false false "")
      ≠ "P1" := by
  constructor
  · rfl
  · decide

/-- C4 amended: when the first patient is present, a patient with no
studies makes `createFilename` return the original stem (not destName);
the destName-as-is return (no study/series suffix, no old-filename
suffix) happens exactly when the patient has a first study entry whose
study pointer is null or whose study has no series. -/
theorem C4_amended_first_study_empty
    (octdata : OCT) (src : Path) (opt : Options)
    (patKey : Int) (p : Patient) (restPat : List (Int × Option Patient))
    (hpat : octdata.patients = (patKey, some p) :: restPat) :
    (p.studies = [] → createFilename octdata src opt = src.stem) ∧
    (∀ studyId s restStudy, p.studies = (studyId, s) :: restStudy →
      (s = none ∨ ∃ st, s = some st ∧ st.series = []) →
      createFilename octdata src opt = (if p.id = "" then "unknown" else p.id)) := by
  constructor
  · intro hst
    unfold createFilename
    rw [hpat]
    simp [hst]
  · intro studyId s restStudy hst hempty
    unfold createFilename
    rw [hpat]
    rcases hempty with rfl | ⟨st, rfl, hser⟩
    · simp [hst]
    · simp [hst, hser]

/-- Closed instantiation of `C4_amended_first_study_empty`: a patient
with one study that has no series yields the bare patient id. -/
theorem C4_witness :
    ((OCT.mk [(1, some (Patient.mk "P9" "" "" "" (Date.mk 0 0 0 true)
        [(4, some (Study.mk []))]))]).patients =
      (1, some (Patient.mk "P9" "" "" "" (Date.mk 0 0 0 true)
        [(4, some (Study.mk []))])) :: []) ∧
    createFilename
        (OCT.mk [(1, some (Patient.mk "P9" "" "" "" (Date.mk 0 0 0 true)
          [(4, some (Study.mk []))]))])
        (Path.mk "/data" "orig" ".raw") (Options.mk OutputFormat.xoct true false "")
      = (if (Patient.mk "P9" "" "" "" (Date.mk 0 0 0 true)
          [(4, some (Study.mk []))]).id = "" then "unknown"
         else (Patient.mk "P9" "" "" "" (Date.mk 0 0 0 true)
          [(4, some (Study.mk []))]).id) := by
  refine ⟨rfl, ?_⟩
  exact (C4_amended_first_study_empty
    (OCT.mk [(1, some (Patient.mk "P9" "" "" "" (Date.mk 0 0 0 true)
      [(4, some (Study.mk []))]))])
    (Path.mk "/data" "orig" ".raw") (Options.mk OutputFormat.xoct true false "")
    1 (Patient.mk "P9" "" "" "" (Date.mk 0 0 0 true) [(4, some (Study.mk []))]) []
    rfl).2 4 (some (Study.mk [])) [] rfl (Or.inr ⟨Study.mk [], rfl, rfl⟩)

/-- C5 counterexample: with boost.filesystem, a dotfile such as
`.profile` has an empty stem; a record with zero patients then makes
`createFilename` return that empty stem, so the result is not always
non-empty. -/
theorem C5_counterexample :
    createFilename (OCT.mk []) (Path.mk "/home/u" "" ".profile")
      (Options.mk OutputFormat.xoct false false "") = "" := rfl

/-- C5 amended: `createFilename` is a pure function; a record with zero
patients yields the stem of the original path as-is, and the result is
non-empty whenever the original path's stem is non-empty.  It is not
always non-empty: the stem-returning fallbacks (zero patients, a null
first patient, a patient without studies) pass a possibly-empty stem
through. -/
theorem C5_amended_pure_fallback
    (octdata : OCT) (src : Path) (opt : Options) (h : src.stem ≠ "") :
    (octdata.patients = [] → createFilename octdata src opt = src.stem) ∧
    createFilename octdata src opt ≠ "" := by
  obtain ⟨patients⟩ := octdata
  obtain ⟨fmt, add, anon, outp⟩ := opt
  constructor
  · intro hp
    have hp' : patients = [] := hp
    subst hp'
    rfl
  · cases patients with
    | nil => exact h
    | cons pat rest =>
      obtain ⟨k, q⟩ := pat
      cases q with
      | none => exact h
      | some p =>
        obtain ⟨pid, sur, fore, tit, bd, studies⟩ := p
        cases studies with
        | nil => exact h
        | cons study rest2 =>
          obtain ⟨studyId, s⟩ := study
          have hdest := destName_ne_empty pid
          cases s with
          | none => exact hdest
          | some st =>
            obtain ⟨serlist⟩ := st
            cases serlist with
            | nil => exact hdest
            | cons ser rest3 =>
              obtain ⟨serId, sv⟩ := ser
              cases add with
              | false =>
                show (if pid = "" then "unknown" else pid) ++ "_" ++
                    toString studyId ++ "_" ++ toString serId ≠ ""
                exact append_ne_empty_left _ _
                  (append_ne_empty_left _ _
                    (append_ne_empty_left _ _
                      (append_ne_empty_left _ _ hdest)))
              | true =>
                show (if pid = "" then "unknown" else pid) ++ "_" ++
                    toString studyId ++ "_" ++ toString serId ++ "_" ++ src.stem ≠ ""
                exact append_ne_empty_left _ _
                  (append_ne_empty_left _ _
                    (append_ne_empty_left _ _
                      (append_ne_empty_left _ _
                        (append_ne_empty_left _ _
                          (append_ne_empty_left _ _ hdest)))))

/-- Closed instantiation of `C5_amended_pure_fallback` on a record with
zero patients and source stem `scan001`. -/
theorem C5_witness :
    (Path.mk "/data" "scan001" ".raw").stem ≠ "" ∧
    (((OCT.mk []).patients = [] →
      createFilename (OCT.mk []) (Path.mk "/data" "scan001" ".raw")
        (Options.mk OutputFormat.xoct false false "") =
        (Path.mk "/data" "scan001" ".raw").stem) ∧
     createFilename (OCT.mk []) (Path.mk "/data" "scan001" ".raw")
        (Options.mk OutputFormat.xoct false false "") ≠ "") :=
  ⟨by decide,
   C5_amended_pure_fallback (OCT.mk []) (Path.mk "/data" "scan001" ".raw")
     (Options.mk OutputFormat.xoct false false "") (by decide)⟩

/-- Prepending anything to a non-empty string stays non-empty. -/
theorem append_ne_empty_right (a b : String) (hb : b ≠ "") : a ++ b ≠ "" := by
  intro hab
  apply hb
  have hlen := congrArg String.length hab
  rw [String.length_append] at hlen
  simp only [String.length_empty] at hlen
  exact eq_empty_of_length_eq_zero b (by omega)

/-- Every output format has a non-empty extension token. -/
theorem getExtention_ne_empty (fmt : OutputFormat) : getExtention fmt ≠ "" := by
  cases fmt <;> decide

/-- The destination path computed by `convertFile` is never the empty
string: it ends with the target format's extension. -/
theorem destFileNameOf_ne_empty (env : Env) (f : Path) (opt : Options) :
    destFileNameOf env f opt ≠ "" :=
  append_ne_empty_right _ _ (getExtention_ne_empty opt.outputFormat)

/-- The trace of `convertFile` is never empty: it opens with either the
conflict error or the planned-destination message. -/
theorem convertFile_ne_nil (env : Env) (f : Path) (opt : Options) :
    convertFile env f opt ≠ [] := by
  by_cases hex : env.pathExists (destFileNameOf env f opt) = true <;>
    simp [convertFile, hex]

/-- The walk processes a concatenation of entry lists piecewise. -/
theorem convertFilesFromDir_append (env : Env) (opt : Options)
    (entries1 entries2 : List DirEntry) :
    convertFilesFromDir env (entries1 ++ entries2) opt =
      convertFilesFromDir env entries1 opt ++ convertFilesFromDir env entries2 opt := by
  induction entries1 with
  | nil => rfl
  | cons e rest ih => simp [convertFilesFromDir, ih]

/-- C3: when the computed destination already exists, `convertFile`
produces exactly the conflict-error report and nothing else: no write
attempt, no anonymisation output, no alternate destination name; and in
a directory walk the conflicting file contributes only that error while
every other file's conversion is exactly what it would be anyway. -/
theorem C3_conflict_aborts_file
    (env : Env) (f : Path) (opt : Options) (pre post : List DirEntry)
    (hex : env.pathExists (destFileNameOf env f opt) = true)
    (hload : env.isLoadable f.full = true)
    (hext : f.ext ≠ getExtention opt.outputFormat) :
    convertFile env f opt = [Event.existsError (destFileNameOf env f opt)] ∧
    convertFilesFromDir env (pre ++ DirEntry.mk f false :: post) opt =
      convertFilesFromDir env pre opt ++
        Event.existsError (destFileNameOf env f opt) :: convertFilesFromDir env post opt := by
  have h1 : convertFile env f opt = [Event.existsError (destFileNameOf env f opt)] := by
    simp [convertFile, hex]
  refine ⟨h1, ?_⟩
  rw [convertFilesFromDir_append]
  simp [convertFilesFromDir, dirStep, hext, hload, h1]

/-- Closed instantiation of `C3_conflict_aborts_file`: a destination
that already exists yields only the conflict error, and neighbouring
files in the walk are converted as usual. -/
theorem C3_witness :
    ((Env.mk (fun _ => OCT.mk []) (fun _ => true) (fun _ _ => true) (fun _ => true)).pathExists
        (destFileNameOf
          (Env.mk (fun _ => OCT.mk []) (fun _ => true) (fun _ _ => true) (fun _ => true))
          (Path.mk "d" "f" ".raw") (Options.mk OutputFormat.xoct false false "")) = true) ∧
    ((Env.mk (fun _ => OCT.mk []) (fun _ => true) (fun _ _ => true) (fun _ => true)).isLoadable
        (Path.mk "d" "f" ".raw").full = true) ∧
    ((Path.mk "d" "f" ".raw").ext ≠
        getExtention (Options.mk OutputFormat.xoct false false "").outputFormat) ∧
    (convertFile (Env.mk (fun _ => OCT.mk []) (fun _ => true) (fun _ _ => true) (fun _ => true))
        (Path.mk "d" "f" ".raw") (Options.mk OutputFormat.xoct false false "") =
      [Event.existsError
        (destFileNameOf
          (Env.mk (fun _ => OCT.mk []) (fun _ => true) (fun _ _ => true) (fun _ => true))
          (Path.mk "d" "f" ".raw") (Options.mk OutputFormat.xoct false false ""))] ∧
     convertFilesFromDir
        (Env.mk (fun _ => OCT.mk []) (fun _ => true) (fun _ _ => true) (fun _ => true))
        ([] ++ DirEntry.mk (Path.mk "d" "f" ".raw") false :: [])
        (Options.mk OutputFormat.xoct false false "") =
      convertFilesFromDir
          (Env.mk (fun _ => OCT.mk []) (fun _ => true) (fun _ _ => true) (fun _ => true))
          [] (Options.mk OutputFormat.xoct false false "") ++
        Event.existsError
          (destFileNameOf
            (Env.mk (fun _ => OCT.mk []) (fun _ => true) (fun _ _ => true) (fun _ => true))
            (Path.mk "d" "f" ".raw") (Options.mk OutputFormat.xoct false false "")) ::
          convertFilesFromDir
            (Env.mk (fun _ => OCT.mk []) (fun _ => true) (fun _ _ => true) (fun _ => true))
            [] (Options.mk OutputFormat.xoct false false "")) :=
  ⟨rfl, rfl, by decide,
   C3_conflict_aborts_file
     (Env.mk (fun _ => OCT.mk []) (fun _ => true) (fun _ _ => true) (fun _ => true))
     (Path.mk "d" "f" ".raw") (Options.mk OutputFormat.xoct false false "")
     [] [] rfl rfl (by decide)⟩

/-- C6 counterexample: `convertFile` has no load-failure branch.  When
`openFile` yields the empty record (what a failed load leaves behind,
the library reporting the error on its own channel), `convertFile` does
not skip the file: it derives the original stem as base name and
proceeds to a write attempt of the empty record. -/
theorem C6_counterexample :
    convertFile
        (Env.mk (fun _ => OCT.mk []) (fun _ => false) (fun _ _ => true) (fun _ => true))
        (Path.mk "d" "f" ".raw") (Options.mk OutputFormat.xoct false false "")
      = [Event.planned "d/f.xoct", Event.writeAttempt "d/f.xoct" (OCT.mk [])] := by
  decide

/-- C6 amended: per-file outcomes are isolated — the walk over any
entry list is the concatenation of each entry's own contribution, so no
conflict, write failure or empty-record load aborts the batch; but a
file whose load produced the empty record is not skipped: whenever its
destination is free, `convertFile` reaches a write attempt of that
empty record. -/
theorem C6_amended_isolation
    (env : Env) (opt : Options) (pre post : List DirEntry) (e : DirEntry) (f : Path)
    (hload : env.openFile f = OCT.mk [])
    (hnex : env.pathExists (destFileNameOf env f opt) = false) :
    convertFilesFromDir env (pre ++ e :: post) opt =
      convertFilesFromDir env pre opt ++ dirStep env opt e ++
        convertFilesFromDir env post opt ∧
    Event.writeAttempt (destFileNameOf env f opt) (OCT.mk []) ∈ convertFile env f opt := by
  constructor
  · rw [convertFilesFromDir_append]
    simp [convertFilesFromDir]
  · simp [convertFile, hload, hnex, destFileNameOf_ne_empty env f opt]
    rw [show anonymisingOct (OCT.mk []) = OCT.mk [] from rfl, ite_self]

/-- Closed instantiation of `C6_amended_isolation`: the walk around a
file whose load yields the empty record proceeds piecewise, and that
file still reaches a write attempt. -/
theorem C6_witness :
    ((Env.mk (fun _ => OCT.mk []) (fun _ => false) (fun _ _ => false) (fun _ => true)).openFile
        (Path.mk "d" "f" ".raw") = OCT.mk []) ∧
    ((Env.mk (fun _ => OCT.mk []) (fun _ => false) (fun _ _ => false) (fun _ => true)).pathExists
        (destFileNameOf
          (Env.mk (fun _ => OCT.mk []) (fun _ => false) (fun _ _ => false) (fun _ => true))
          (Path.mk "d" "f" ".raw") (Options.mk OutputFormat.xoct false false "")) = false) ∧
    (convertFilesFromDir
        (Env.mk (fun _ => OCT.mk []) (fun _ => false) (fun _ _ => false) (fun _ => true))
        ([DirEntry.mk (Path.mk "d" "a" ".raw") false] ++
          DirEntry.mk (Path.mk "d" "f" ".raw") false ::
            [DirEntry.mk (Path.mk "d" "b" ".raw") false])
        (Options.mk OutputFormat.xoct false false "") =
      convertFilesFromDir
          (Env.mk (fun _ => OCT.mk []) (fun _ => false) (fun _ _ => false) (fun _ => true))
          [DirEntry.mk (Path.mk "d" "a" ".raw") false]
          (Options.mk OutputFormat.xoct false false "") ++
        dirStep
          (Env.mk (fun _ => OCT.mk []) (fun _ => false) (fun _ _ => false) (fun _ => true))
          (Options.mk OutputFormat.xoct false false "")
          (DirEntry.mk (Path.mk "d" "f" ".raw") false) ++
        convertFilesFromDir
          (Env.mk (fun _ => OCT.mk []) (fun _ => false) (fun _ _ => false) (fun _ => true))
          [DirEntry.mk (Path.mk "d" "b" ".raw") false]
          (Options.mk OutputFormat.xoct false false "") ∧
     Event.writeAttempt
        (destFileNameOf
          (Env.mk (fun _ => OCT.mk []) (fun _ => false) (fun _ _ => false) (fun _ => true))
          (Path.mk "d" "f" ".raw") (Options.mk OutputFormat.xoct false false ""))
        (OCT.mk []) ∈
      convertFile
        (Env.mk (fun _ => OCT.mk []) (fun _ => false) (fun _ _ => false) (fun _ => true))
        (Path.mk "d" "f" ".raw") (Options.mk OutputFormat.xoct false false "")) :=
  ⟨rfl, rfl,
   C6_amended_isolation
     (Env.mk (fun _ => OCT.mk []) (fun _ => false) (fun _ _ => false) (fun _ => true))
     (Options.mk OutputFormat.xoct false false "")
     [DirEntry.mk (Path.mk "d" "a" ".raw") false]
     [DirEntry.mk (Path.mk "d" "b" ".raw") false]
     (DirEntry.mk (Path.mk "d" "f" ".raw") false)
     (Path.mk "d" "f" ".raw") rfl rfl⟩

/-- C7: a non-directory entry is dispatched to conversion exactly when
its extension differs from the target format's extension and the
codec's loadability probe accepts it; and a walk over entries whose
files all already carry the target extension converts nothing. -/
theorem C7_walk_filter
    (env : Env) (opt : Options) (e : DirEntry) (entries : List DirEntry)
    (he : e.isDir = false)
    (hall : ∀ x ∈ entries, x.isDir = false → x.path.ext = getExtention opt.outputFormat) :
    (dirStep env opt e ≠ [] ↔
      (e.path.ext ≠ getExtention opt.outputFormat ∧ env.isLoadable e.path.full = true)) ∧
    convertFilesFromDir env entries opt = [] := by
  constructor
  · constructor
    · intro hne
      by_cases hext : e.path.ext = getExtention opt.outputFormat
      · exact absurd (by simp [dirStep, he, hext]) hne
      · refine ⟨hext, ?_⟩
        by_cases hl : env.isLoadable e.path.full = true
        · exact hl
        · exact absurd (by simp [dirStep, he, hext, hl]) hne
    · rintro ⟨hext, hl⟩
      have : dirStep env opt e = convertFile env e.path opt := by
        simp [dirStep, he, hext, hl]
      rw [this]
      exact convertFile_ne_nil env e.path opt
  · induction entries with
    | nil => rfl
    | cons x rest ih =>
      have hx := hall x (List.mem_cons_self x rest)
      have hstep : dirStep env opt x = [] := by
        cases hxd : x.isDir with
        | true => simp [dirStep, hxd]
        | false => simp [dirStep, hxd, hx hxd]
      have hrest := ih (fun y hy => hall y (List.mem_cons_of_mem x hy))
      simp [convertFilesFromDir, hstep, hrest]

/-- Closed instantiation of `C7_walk_filter`: a `.raw` file is
dispatched, and a directory holding only `.xoct` files (plus a
subdirectory) yields an empty walk under target format `xoct`. -/
theorem C7_witness :
    ((DirEntry.mk (Path.mk "d" "a" ".raw") false).isDir = false) ∧
    (∀ x ∈ [DirEntry.mk (Path.mk "d" "b" ".xoct") false, DirEntry.mk (Path.mk "d" "sub" "") true],
      x.isDir = false →
        x.path.ext = getExtention (Options.mk OutputFormat.xoct false false "").outputFormat) ∧
    ((dirStep (Env.mk (fun _ => OCT.mk []) (fun _ => false) (fun _ _ => true) (fun _ => true))
         (Options.mk OutputFormat.xoct false false "")
         (DirEntry.mk (Path.mk "d" "a" ".raw") false) ≠ [] ↔
       ((DirEntry.mk (Path.mk "d" "a" ".raw") false).path.ext ≠
          getExtention (Options.mk OutputFormat.xoct false false "").outputFormat ∧
        (Env.mk (fun _ => OCT.mk []) (fun _ => false) (fun _ _ => true)
            (fun _ => true)).isLoadable
          (DirEntry.mk (Path.mk "d" "a" ".raw") false).path.full = true)) ∧
     convertFilesFromDir
        (Env.mk (fun _ => OCT.mk []) (fun _ => false) (fun _ _ => true) (fun _ => true))
        [DirEntry.mk (Path.mk "d" "b" ".xoct") false, DirEntry.mk (Path.mk "d" "sub" "") true]
        (Options.mk OutputFormat.xoct false false "") = []) :=
  ⟨rfl, by decide,
   C7_walk_filter
     (Env.mk (fun _ => OCT.mk []) (fun _ => false) (fun _ _ => true) (fun _ => true))
     (Options.mk OutputFormat.xoct false false "")
     (DirEntry.mk (Path.mk "d" "a" ".raw") false)
     [DirEntry.mk (Path.mk "d" "b" ".xoct") false, DirEntry.mk (Path.mk "d" "sub" "") true]
     rfl (by decide)⟩

/-- C10: the already-in-target-format filter is an exact, case-sensitive
string comparison: a file with extension `.XOCT` under target format
`xoct` is not skipped by the extension filter — it is handed to the
loadability probe (whose answer decides conversion) and, when the probe
accepts, it is converted. -/
theorem C10_case_sensitive_extension :
    (Path.mk "d" "a" ".XOCT").ext ≠ getExtention OutputFormat.xoct ∧
    convertFilesFromDir
        (Env.mk (fun _ => OCT.mk []) (fun _ => false) (fun _ _ => true) (fun _ => true))
        [DirEntry.mk (Path.mk "d" "a" ".XOCT") false]
        (Options.mk OutputFormat.xoct false false "")
      = convertFile
          (Env.mk (fun _ => OCT.mk []) (fun _ => false) (fun _ _ => true) (fun _ => true))
          (Path.mk "d" "a" ".XOCT") (Options.mk OutputFormat.xoct false false "") ∧
    convertFile
        (Env.mk (fun _ => OCT.mk []) (fun _ => false) (fun _ _ => true) (fun _ => true))
        (Path.mk "d" "a" ".XOCT") (Options.mk OutputFormat.xoct false false "") ≠ [] ∧
    convertFilesFromDir
        (Env.mk (fun _ => OCT.mk []) (fun _ => false) (fun _ _ => true) (fun _ => false))
        [DirEntry.mk (Path.mk "d" "a" ".XOCT") false]
        (Options.mk OutputFormat.xoct false false "")
      = [] := by
  refine ⟨by decide, by decide, ?_, by decide⟩
  decide

end ConvertOct
